import Mathlib

/-!
Verification of the LP impermanent-loss estimator computation core.

The repository contains two deployable variants of the same calculator:
`src/index.ts` (returns raw, unrounded numbers and a 3-branch
recommendation) and `src/src/index.ts` (rounds every numeric field to two
decimal places at the response boundary and uses a 5-branch
recommendation).  Both are embedded below over the real numbers: IEEE
doubles are idealised as elements of ℝ, `Math.sqrt` as `Real.sqrt`, and
`Number(x.toFixed(2))` as exact half-up rounding to two decimals.
-/

set_option maxHeartbeats 1000000

/-- Result record shared by both variants (`interface ILResult` in
`src/index.ts`, `ILOutputSchema` in `src/src/index.ts`). -/
structure ILResult where
  il_percentage : ℝ
  il_usd : ℝ
  initial_value_usd : ℝ
  current_value_usd : ℝ
  hodl_value_usd : ℝ
  fee_apr : ℝ
  net_apr : ℝ
  recommendation : String

/-- Models `Number(x.toFixed(2))`: rounding to two decimal places
(half-up over ℝ). -/
noncomputable def round2 (x : ℝ) : ℝ := (round (x * 100) : ℤ) / 100

namespace IndexTs

/-- Embeds `calculateImpermanentLoss` from `src/index.ts` (lines 23-56):
no input validation, no rounding, recommendation chosen from rules 1, 2
and the default only. -/
noncomputable def calculateImpermanentLoss ( priceRatio initialPrice0 initialPrice1 amount0 amount1 feesEarned daysHeld : ℝ) : ILResult :=
  let k := amount0 * amount1
  let newAmount0 := Real.sqrt (k / priceRatio)
  let newAmount1 := Real.sqrt (k * priceRatio)
  let initialValue := amount0 * initialPrice0 + amount1 * initialPrice1
  let currentValue := newAmount0 * initialPrice0 * priceRatio + newAmount1 * initialPrice1
  let hodlValue := amount0 * initialPrice0 * priceRatio + amount1 * initialPrice1
  let ilUsd := currentValue - hodlValue
  let ilPercentage := (ilUsd / hodlValue) * 100
  let annualFees := (feesEarned / daysHeld) * 365
  let feeApr := (annualFees / initialValue) * 100
  let netApr := feeApr + (ilPercentage / daysHeld) * 365
  let recommendation :=
    if ilPercentage < -5 ∧ feeApr < |ilPercentage| then
      "Consider exiting - IL exceeds fee earnings"
    else if netApr > 10 then
      "Strong position - fees outpace IL"
    else
      "Monitor position"
  { il_percentage := ilPercentage
    il_usd := ilUsd
    initial_value_usd := initialValue
    current_value_usd := currentValue + feesEarned
    hodl_value_usd := hodlValue
    fee_apr := feeApr
    net_apr := netApr
    recommendation := recommendation }

end IndexTs

namespace SrcIndexTs

/-- Embeds `calculateImpermanentLoss` from `src/src/index.ts`
(lines 52-102): same internal arithmetic, full 5-branch recommendation,
every numeric field rounded to two decimals at the return boundary. -/
noncomputable def calculateImpermanentLoss ( priceRatio initialPrice0 initialPrice1 amount0 amount1 feesEarned daysHeld : ℝ) : ILResult :=
  let k := amount0 * amount1
  let newAmount0 := Real.sqrt (k / priceRatio)
  let newAmount1 := Real.sqrt (k * priceRatio)
  let initialValue := amount0 * initialPrice0 + amount1 * initialPrice1
  let currentValue := newAmount0 * initialPrice0 * priceRatio + newAmount1 * initialPrice1
  let hodlValue := amount0 * initialPrice0 * priceRatio + amount1 * initialPrice1
  let ilUsd := currentValue - hodlValue
  let ilPercentage := (ilUsd / hodlValue) * 100
  let annualFees := (feesEarned / daysHeld) * 365
  let feeApr := (annualFees / initialValue) * 100
  let netApr := feeApr + (ilPercentage / daysHeld) * 365
  let recommendation :=
    if ilPercentage < -5 ∧ feeApr < |ilPercentage| then
      "Consider exiting - IL exceeds fee earnings"
    else if netApr > 10 then
      "Strong position - fees outpace IL"
    else if netApr > 0 then
      "Profitable position - fees covering IL"
    else if ilPercentage < -10 then
      "High IL detected - evaluate exit strategy"
    else
      "Monitor position"
  { il_percentage := round2 ilPercentage
    il_usd := round2 ilUsd
    initial_value_usd := round2 initialValue
    current_value_usd := round2 (currentValue + feesEarned)
    hodl_value_usd := round2 hodlValue
    fee_apr := round2 feeApr
    net_apr := round2 netApr
    recommendation := recommendation }

end SrcIndexTs

/-- Spec-side definition (from §4.4 of the spec): the fixed five-rule
recommendation table, evaluated top-to-bottom, first match wins. -/
noncomputable def specRecommendation (ilPercentage feeApr netApr : ℝ) : String :=
  if ilPercentage < -5 ∧ feeApr < |ilPercentage| then
    "Consider exiting - IL exceeds fee earnings"
  else if netApr > 10 then
    "Strong position - fees outpace IL"
  else if netApr > 0 then
    "Profitable position - fees covering IL"
  else if ilPercentage < -10 then
    "High IL detected - evaluate exit strategy"
  else
    "Monitor position"

/-- Spec-side definition (from §4.1 of the spec, steps 1-7): the step
equations an `ILResult` must satisfy, with `k = amount0*amount1`,
`newAmount0 = sqrt(k/priceRatio)`, `newAmount1 = sqrt(k*priceRatio)`
substituted in. -/
def SpecSteps (r p0 p1 a0 a1 f : ℝ) (res : ILResult) : Prop :=
  res.initial_value_usd = a0 * p0 + a1 * p1 ∧
  res.hodl_value_usd = a0 * p0 * r + a1 * p1 ∧
  res.current_value_usd =
    (Real.sqrt (a0 * a1 / r) * p0 * r + Real.sqrt (a0 * a1 * r) * p1) + f ∧
  res.il_usd =
    (Real.sqrt (a0 * a1 / r) * p0 * r + Real.sqrt (a0 * a1 * r) * p1) -
      (a0 * p0 * r + a1 * p1) ∧
  res.il_percentage = 100 * res.il_usd / res.hodl_value_usd

/-- Spec-side definition (from §4.1 of the spec): the closed-form 50/50
constant-product impermanent loss, as a percentage. -/
noncomputable def closedFormIL (r : ℝ) : ℝ := 100 * (2 * Real.sqrt r / (1 + r) - 1)

/-- Helper: evaluate a square root at a concrete input. -/
lemma sqrt_eval (a b : ℝ) (hb : 0 ≤ b) (h : b * b = a) : Real.sqrt a = b := by
  rw [← h, Real.sqrt_mul_self hb]

/-- Helper: evaluate half-up rounding to two decimals at a concrete input. -/
lemma round2_eval (x : ℝ) (n : ℤ) (h : round (x * 100) = n) : round2 x = n / 100 := by
  rw [round2, h]

/-- Claim C10: for every input to the unrounded variant, the returned
record satisfies the exact identity
`il_usd = (current_value_usd - feesEarned) - hodl_value_usd`; the
reported IL, fee-inclusive current value and hodl value are mutually
consistent. -/
theorem c10_il_usd_identity (r p0 p1 a0 a1 f d : ℝ) :
    (IndexTs.calculateImpermanentLoss r p0 p1 a0 a1 f d).il_usd =
      ((IndexTs.calculateImpermanentLoss r p0 p1 a0 a1 f d).current_value_usd - f) -
        (IndexTs.calculateImpermanentLoss r p0 p1 a0 a1 f d).hodl_value_usd := by
  simp only [IndexTs.calculateImpermanentLoss]
  ring

/-- Claim C8 (amended): the internally computed fee APR follows the
position-based algorithm `feeApr = 100 * (feesEarned/daysHeld*365) /
initialValueUsd` and is exactly linear in `feesEarned`; this is the
`fee_apr` returned by the unrounded `src/index.ts` variant.  (The
`src/src/index.ts` variant returns this value rounded to two decimals,
for which exact doubling fails; see the counterexample.) -/
theorem c8_fee_apr_linear (r p0 p1 a0 a1 f d : ℝ) :
    (IndexTs.calculateImpermanentLoss r p0 p1 a0 a1 (2 * f) d).fee_apr =
      2 * (IndexTs.calculateImpermanentLoss r p0 p1 a0 a1 f d).fee_apr ∧
    (IndexTs.calculateImpermanentLoss r p0 p1 a0 a1 f d).fee_apr =
      100 * (f / d * 365) / (a0 * p0 + a1 * p1) := by
  constructor <;> · simp only [IndexTs.calculateImpermanentLoss]; ring

/-- Claim C6 (amended): for every input, the recommendation returned by
the `src/src/index.ts` variant is exactly the one selected by the spec's
fixed five-rule table, evaluated top-to-bottom with first match winning,
over the internally computed (unrounded) `ilPercentage`, `feeApr` and
`netApr` — so rule 1 takes priority over every later rule.  The
`src/index.ts` variant implements only rules 1, 2 and the default; see
the counterexample. -/
theorem c6_recommendation_table (r p0 p1 a0 a1 f d : ℝ) :
    (SrcIndexTs.calculateImpermanentLoss r p0 p1 a0 a1 f d).recommendation =
      specRecommendation
        (IndexTs.calculateImpermanentLoss r p0 p1 a0 a1 f d).il_percentage
        (IndexTs.calculateImpermanentLoss r p0 p1 a0 a1 f d).fee_apr
        (IndexTs.calculateImpermanentLoss r p0 p1 a0 a1 f d).net_apr := rfl

/-- Claim C7 (amended): the two variants share the same internal
computation — every numeric field returned by `src/src/index.ts` equals
the corresponding unrounded field of `src/index.ts` rounded to two
decimals.  The full results are nevertheless not equal for every input:
the rounding differs and the recommendation rule sets differ (see the
counterexample). -/
theorem c7_variants_agree_up_to_rounding (r p0 p1 a0 a1 f d : ℝ) :
    (SrcIndexTs.calculateImpermanentLoss r p0 p1 a0 a1 f d).il_percentage =
      round2 (IndexTs.calculateImpermanentLoss r p0 p1 a0 a1 f d).il_percentage ∧
    (SrcIndexTs.calculateImpermanentLoss r p0 p1 a0 a1 f d).il_usd =
      round2 (IndexTs.calculateImpermanentLoss r p0 p1 a0 a1 f d).il_usd ∧
    (SrcIndexTs.calculateImpermanentLoss r p0 p1 a0 a1 f d).initial_value_usd =
      round2 (IndexTs.calculateImpermanentLoss r p0 p1 a0 a1 f d).initial_value_usd ∧
    (SrcIndexTs.calculateImpermanentLoss r p0 p1 a0 a1 f d).current_value_usd =
      round2 (IndexTs.calculateImpermanentLoss r p0 p1 a0 a1 f d).current_value_usd ∧
    (SrcIndexTs.calculateImpermanentLoss r p0 p1 a0 a1 f d).hodl_value_usd =
      round2 (IndexTs.calculateImpermanentLoss r p0 p1 a0 a1 f d).hodl_value_usd ∧
    (SrcIndexTs.calculateImpermanentLoss r p0 p1 a0 a1 f d).fee_apr =
      round2 (IndexTs.calculateImpermanentLoss r p0 p1 a0 a1 f d).fee_apr ∧
    (SrcIndexTs.calculateImpermanentLoss r p0 p1 a0 a1 f d).net_apr =
      round2 (IndexTs.calculateImpermanentLoss r p0 p1 a0 a1 f d).net_apr :=
  ⟨rfl, rfl, rfl, rfl, rfl, rfl, rfl⟩

/-- Claim C9 (amended): in the `src/src/index.ts` variant every numeric
response field equals the internally computed (unrounded) value rounded
to two decimal places, the rounding being applied only at the response
boundary — the internal derivation, including the values feeding the
recommendation, is unrounded.  The `src/index.ts` variant applies no
rounding at all; see the counterexample. -/
theorem c9_rounding_at_boundary (r p0 p1 a0 a1 f d : ℝ) :
    (SrcIndexTs.calculateImpermanentLoss r p0 p1 a0 a1 f d).il_percentage =
      round2 (((Real.sqrt (a0 * a1 / r) * p0 * r + Real.sqrt (a0 * a1 * r) * p1 -
        (a0 * p0 * r + a1 * p1)) / (a0 * p0 * r + a1 * p1)) * 100) ∧
    (SrcIndexTs.calculateImpermanentLoss r p0 p1 a0 a1 f d).il_usd =
      round2 (Real.sqrt (a0 * a1 / r) * p0 * r + Real.sqrt (a0 * a1 * r) * p1 -
        (a0 * p0 * r + a1 * p1)) ∧
    (SrcIndexTs.calculateImpermanentLoss r p0 p1 a0 a1 f d).initial_value_usd =
      round2 (a0 * p0 + a1 * p1) ∧
    (SrcIndexTs.calculateImpermanentLoss r p0 p1 a0 a1 f d).current_value_usd =
      round2 (Real.sqrt (a0 * a1 / r) * p0 * r + Real.sqrt (a0 * a1 * r) * p1 + f) ∧
    (SrcIndexTs.calculateImpermanentLoss r p0 p1 a0 a1 f d).hodl_value_usd =
      round2 (a0 * p0 * r + a1 * p1) ∧
    (SrcIndexTs.calculateImpermanentLoss r p0 p1 a0 a1 f d).fee_apr =
      round2 ((f / d * 365 / (a0 * p0 + a1 * p1)) * 100) ∧
    (SrcIndexTs.calculateImpermanentLoss r p0 p1 a0 a1 f d).net_apr =
      round2 ((f / d * 365 / (a0 * p0 + a1 * p1)) * 100 +
        (((Real.sqrt (a0 * a1 / r) * p0 * r + Real.sqrt (a0 * a1 * r) * p1 -
          (a0 * p0 * r + a1 * p1)) / (a0 * p0 * r + a1 * p1)) * 100 / d) * 365) := by
  exact ⟨rfl, rfl, rfl, rfl, rfl, rfl, rfl⟩

/-- Claim C1 (amended): for every input satisfying the preconditions,
the result of the unrounded variant's `calculateImpermanentLoss`
satisfies the spec's step equations exactly (the `src/src/index.ts`
variant returns these same step values rounded to two decimals, so its
fields satisfy the equations only up to rounding; see the
counterexample). -/
theorem c1_step_equations (r p0 p1 a0 a1 f d : ℝ)
    (hr : 0 < r) (hp0 : 0 ≤ p0) (hp1 : 0 ≤ p1) (ha0 : 0 ≤ a0) (ha1 : 0 ≤ a1)
    (hk : 0 < a0 * a1) (hf : 0 ≤ f) (hd : 0 < d) :
    SpecSteps r p0 p1 a0 a1 f (IndexTs.calculateImpermanentLoss r p0 p1 a0 a1 f d) := by
  refine ⟨rfl, rfl, rfl, rfl, ?_⟩
  simp only [IndexTs.calculateImpermanentLoss]
  ring

/-- Witness for `c1_step_equations` at the concrete input
`(r, p0, p1, a0, a1, f, d) = (1, 1, 1, 1, 1, 0, 1)`. -/
theorem c1_witness :
    SpecSteps 1 1 1 1 1 0 (IndexTs.calculateImpermanentLoss 1 1 1 1 1 0 1) :=
  c1_step_equations 1 1 1 1 1 0 1 (by norm_num) (by norm_num) (by norm_num)
    (by norm_num) (by norm_num) (by norm_num) (by norm_num) (by norm_num)

/-- Helper: `round2` of zero is zero. -/
lemma round2_zero : round2 0 = 0 := by
  rw [round2_eval 0 0 (by rw [round_eq]; norm_num)]
  norm_num

/-- Helper: `round2` maps nonpositive reals to nonpositive reals. -/
lemma round2_nonpos (x : ℝ) (hx : x ≤ 0) : round2 x ≤ 0 := by
  rw [round2]
  have h1 : round (x * 100) ≤ 0 := by
    have h2 : round (x * 100) ≤ round (0 : ℝ) := by
      rw [round_eq, round_eq]
      exact Int.floor_le_floor (by linarith)
    simpa using h2
  have h3 : ((round (x * 100) : ℤ) : ℝ) ≤ 0 := by exact_mod_cast h1
  rw [div_nonpos_iff]
  exact Or.inr ⟨h3, by norm_num⟩

/-- Claim C2: the failing input `daysHeld = 0` (all other fields valid)
reaches the arithmetic with no InvalidInput check in either variant:
`calculateImpermanentLoss` is total and returns an ordinary response
record (in JavaScript its numeric fields are NaN/Infinity) instead of
signalling an error. -/
theorem c2_no_validation_at_zero_days :
    (IndexTs.calculateImpermanentLoss 1 1 1 1 1 1 0).recommendation = "Monitor position" ∧
    (SrcIndexTs.calculateImpermanentLoss 1 1 1 1 1 1 0).recommendation = "Monitor position" := by
  have h1 : Real.sqrt ((1 : ℝ) * 1 / 1) = 1 := sqrt_eval _ _ (by norm_num) (by norm_num)
  have h2 : Real.sqrt ((1 : ℝ) * 1 * 1) = 1 := sqrt_eval _ _ (by norm_num) (by norm_num)
  constructor <;>
    · simp only [IndexTs.calculateImpermanentLoss, SrcIndexTs.calculateImpermanentLoss, h1, h2]
      norm_num

/-- Claim C3 (amended): with `priceRatio = 1` and a balanced position
`amount0 = amount1`, both variants return `il_percentage = 0` and
`il_usd = 0` exactly, for any allowed prices.  (Without
`amount0 = amount1` the claim fails; see the counterexample.) -/
theorem c3_zero_il_at_unit_ratio (p0 p1 a0 a1 f d : ℝ)
    (hp0 : 0 ≤ p0) (hp1 : 0 ≤ p1) (ha0 : 0 ≤ a0) (hk : 0 < a0 * a1)
    (hf : 0 ≤ f) (hd : 0 < d) (heq : a0 = a1) :
    (IndexTs.calculateImpermanentLoss 1 p0 p1 a0 a1 f d).il_percentage = 0 ∧
    (IndexTs.calculateImpermanentLoss 1 p0 p1 a0 a1 f d).il_usd = 0 ∧
    (SrcIndexTs.calculateImpermanentLoss 1 p0 p1 a0 a1 f d).il_percentage = 0 ∧
    (SrcIndexTs.calculateImpermanentLoss 1 p0 p1 a0 a1 f d).il_usd = 0 := by
  subst heq
  have h1 : Real.sqrt (a0 * a0 / 1) = a0 := by rw [div_one, Real.sqrt_mul_self ha0]
  have h2 : Real.sqrt (a0 * a0 * 1) = a0 := by rw [mul_one, Real.sqrt_mul_self ha0]
  refine ⟨?_, ?_, ?_, ?_⟩ <;>
    simp only [IndexTs.calculateImpermanentLoss, SrcIndexTs.calculateImpermanentLoss,
      h1, h2, sub_self, zero_div, zero_mul, round2_zero]

/-- Witness for `c3_zero_il_at_unit_ratio` at the concrete input
`(p0, p1, a0, a1, f, d) = (1, 1, 1, 1, 0, 1)`. -/
theorem c3_witness :
    (IndexTs.calculateImpermanentLoss 1 1 1 1 1 0 1).il_percentage = 0 ∧
    (IndexTs.calculateImpermanentLoss 1 1 1 1 1 0 1).il_usd = 0 ∧
    (SrcIndexTs.calculateImpermanentLoss 1 1 1 1 1 0 1).il_percentage = 0 ∧
    (SrcIndexTs.calculateImpermanentLoss 1 1 1 1 1 0 1).il_usd = 0 :=
  c3_zero_il_at_unit_ratio 1 1 1 1 0 1 (by norm_num) (by norm_num) (by norm_num)
    (by norm_num) (by norm_num) (by norm_num) rfl

/-- Counterexample to claim C3 as stated: at the precondition-satisfying
input `priceRatio = 1`, `p0 = p1 = 1`, `amount0 = 4`, `amount1 = 1`,
`fees = 0`, `daysHeld = 1` the code returns `il_percentage = -20` and
`il_usd = -1`, far outside the claimed `1e-9` epsilon around zero. -/
theorem c3_counterexample :
    (IndexTs.calculateImpermanentLoss 1 1 1 4 1 0 1).il_percentage = -20 ∧
    (IndexTs.calculateImpermanentLoss 1 1 1 4 1 0 1).il_usd = -1 ∧
    ¬ |(IndexTs.calculateImpermanentLoss 1 1 1 4 1 0 1).il_percentage| ≤ 1 / 1000000000 := by
  have h1 : Real.sqrt ((4 : ℝ) * 1 / 1) = 2 := sqrt_eval _ _ (by norm_num) (by norm_num)
  have h2 : Real.sqrt ((4 : ℝ) * 1 * 1) = 2 := sqrt_eval _ _ (by norm_num) (by norm_num)
  have hval : (IndexTs.calculateImpermanentLoss 1 1 1 4 1 0 1).il_percentage = -20 := by
    simp only [IndexTs.calculateImpermanentLoss, h1, h2]
    norm_num
  refine ⟨hval, ?_, ?_⟩
  · simp only [IndexTs.calculateImpermanentLoss, h1, h2]
    norm_num
  · rw [hval, abs_of_nonpos (by norm_num : (-20 : ℝ) ≤ 0)]
    norm_num

/-- Claim C4 (amended): when the two deposit prices are equal and
positive (`initialPrice0 = initialPrice1 = p > 0`, amounts positive),
the computed `il_percentage` is nonpositive for every `priceRatio > 0`,
in both variants.  (With unequal prices the claim fails; see the
counterexample.) -/
theorem c4_il_nonpositive (r p a0 a1 f d : ℝ)
    (hr : 0 < r) (hp : 0 < p) (ha0 : 0 < a0) (ha1 : 0 < a1) :
    (IndexTs.calculateImpermanentLoss r p p a0 a1 f d).il_percentage ≤ 0 ∧
    (SrcIndexTs.calculateImpermanentLoss r p p a0 a1 f d).il_percentage ≤ 0 := by
  have hs : Real.sqrt (a0 * a1 / r) * r = Real.sqrt (a0 * a1 * r) := by
    rw [Real.sqrt_div (by positivity) r, Real.sqrt_mul (by positivity) r]
    rw [div_mul_eq_mul_div]
    have hsr : (0 : ℝ) < Real.sqrt r := Real.sqrt_pos.mpr hr
    field_simp
    linear_combination (-(Real.sqrt a0 * Real.sqrt a1)) * Real.mul_self_sqrt hr.le
  have key : 2 * Real.sqrt (a0 * a1 * r) ≤ a0 * r + a1 := by
    have hsq := sq_nonneg (Real.sqrt (a0 * r) - Real.sqrt a1)
    have e1 : Real.sqrt (a0 * r) * Real.sqrt (a0 * r) = a0 * r :=
      Real.mul_self_sqrt (by positivity)
    have e2 : Real.sqrt a1 * Real.sqrt a1 = a1 := Real.mul_self_sqrt ha1.le
    have e3 : Real.sqrt (a0 * r) * Real.sqrt a1 = Real.sqrt (a0 * a1 * r) := by
      rw [← Real.sqrt_mul (by positivity)]
      ring_nf
    nlinarith [hsq, e1, e2, e3]
  have hodlpos : (0 : ℝ) < a0 * p * r + a1 * p := by positivity
  have numneg : Real.sqrt (a0 * a1 / r) * p * r + Real.sqrt (a0 * a1 * r) * p -
      (a0 * p * r + a1 * p) ≤ 0 := by
    have lhs_eq : Real.sqrt (a0 * a1 / r) * p * r + Real.sqrt (a0 * a1 * r) * p =
        p * (2 * Real.sqrt (a0 * a1 * r)) := by
      calc Real.sqrt (a0 * a1 / r) * p * r + Real.sqrt (a0 * a1 * r) * p
          = p * (Real.sqrt (a0 * a1 / r) * r) + p * Real.sqrt (a0 * a1 * r) := by ring
        _ = p * Real.sqrt (a0 * a1 * r) + p * Real.sqrt (a0 * a1 * r) := by rw [hs]
        _ = p * (2 * Real.sqrt (a0 * a1 * r)) := by ring
    rw [lhs_eq]
    nlinarith [mul_le_mul_of_nonneg_left key hp.le]
  have base : (IndexTs.calculateImpermanentLoss r p p a0 a1 f d).il_percentage ≤ 0 := by
    simp only [IndexTs.calculateImpermanentLoss]
    have hq : (Real.sqrt (a0 * a1 / r) * p * r + Real.sqrt (a0 * a1 * r) * p -
        (a0 * p * r + a1 * p)) / (a0 * p * r + a1 * p) ≤ 0 := by
      rw [div_nonpos_iff]
      exact Or.inr ⟨numneg, hodlpos.le⟩
    nlinarith [hq]
  exact ⟨base, round2_nonpos _ base⟩

/-- Witness for `c4_il_nonpositive` at the concrete input
`(r, p, a0, a1, f, d) = (4, 1, 1, 1, 0, 1)`. -/
theorem c4_witness :
    (IndexTs.calculateImpermanentLoss 4 1 1 1 1 0 1).il_percentage ≤ 0 ∧
    (SrcIndexTs.calculateImpermanentLoss 4 1 1 1 1 0 1).il_percentage ≤ 0 :=
  c4_il_nonpositive 4 1 1 1 0 1 (by norm_num) (by norm_num) (by norm_num) (by norm_num)

/-- Counterexample to claim C4 as stated: at the precondition-satisfying
input `priceRatio = 4`, `p0 = 1`, `p1 = 10`, `amount0 = amount1 = 1`,
`fees = 0`, `daysHeld = 1` (all strictly positive) the code returns
`il_percentage = 400/7 > 0`. -/
theorem c4_counterexample :
    (IndexTs.calculateImpermanentLoss 4 1 10 1 1 0 1).il_percentage = 400 / 7 ∧
    0 < (IndexTs.calculateImpermanentLoss 4 1 10 1 1 0 1).il_percentage := by
  have h1 : Real.sqrt ((1 : ℝ) * 1 / 4) = 1 / 2 := sqrt_eval _ _ (by norm_num) (by norm_num)
  have h2 : Real.sqrt ((1 : ℝ) * 1 * 4) = 2 := sqrt_eval _ _ (by norm_num) (by norm_num)
  constructor <;>
    · simp only [IndexTs.calculateImpermanentLoss, h1, h2]
      norm_num

/-- Claim C5 (amended): when the position is balanced —
`amount0 = amount1 = a > 0` and `initialPrice0 = initialPrice1 = p > 0` —
the step-by-step derivation in `calculateImpermanentLoss` equals the
closed form `100*(2*sqrt(r)/(1+r) - 1)` exactly, for every
`priceRatio > 0`.  (For unbalanced inputs the two derivations disagree;
see the counterexample.) -/
theorem c5_closed_form (r p a f d : ℝ) (hr : 0 < r) (hp : 0 < p) (ha : 0 < a) :
    (IndexTs.calculateImpermanentLoss r p p a a f d).il_percentage = closedFormIL r := by
  simp only [IndexTs.calculateImpermanentLoss, closedFormIL]
  have h1 : Real.sqrt (a * a / r) = a / Real.sqrt r := by
    rw [Real.sqrt_div (by positivity) r, Real.sqrt_mul_self ha.le]
  have h2 : Real.sqrt (a * a * r) = a * Real.sqrt r := by
    rw [Real.sqrt_mul (by positivity) r, Real.sqrt_mul_self ha.le]
  rw [h1, h2]
  set s := Real.sqrt r with hsdef
  have hs0 : (0 : ℝ) < s := Real.sqrt_pos.mpr hr
  have hr' : r = s * s := (Real.mul_self_sqrt hr.le).symm
  rw [hr']
  have hden : a * p * (s * s) + a * p ≠ 0 := by positivity
  have hden2 : (1 : ℝ) + s * s ≠ 0 := by positivity
  field_simp
  ring

/-- Witness for `c5_closed_form` at the concrete input
`(r, p, a, f, d) = (4, 1, 1, 0, 1)`. -/
theorem c5_witness :
    (IndexTs.calculateImpermanentLoss 4 1 1 1 1 0 1).il_percentage = closedFormIL 4 :=
  c5_closed_form 4 1 1 0 1 (by norm_num) (by norm_num) (by norm_num)

/-- Counterexample to claim C5 as stated: at the precondition-satisfying
input `priceRatio = 4`, `p0 = 1`, `p1 = 5`, `amount0 = amount1 = 1`,
`fees = 0`, `daysHeld = 1` the step derivation yields
`il_percentage = 100/3` while the closed form yields `-20`, far beyond
any floating-point tolerance. -/
theorem c5_counterexample :
    (IndexTs.calculateImpermanentLoss 4 1 5 1 1 0 1).il_percentage = 100 / 3 ∧
    closedFormIL 4 = -20 ∧
    (1 / 1000000000 : ℝ) < |100 / 3 - (-20 : ℝ)| := by
  have h1 : Real.sqrt ((1 : ℝ) * 1 / 4) = 1 / 2 := sqrt_eval _ _ (by norm_num) (by norm_num)
  have h2 : Real.sqrt ((1 : ℝ) * 1 * 4) = 2 := sqrt_eval _ _ (by norm_num) (by norm_num)
  have h4 : Real.sqrt (4 : ℝ) = 2 := sqrt_eval _ _ (by norm_num) (by norm_num)
  refine ⟨?_, ?_, ?_⟩
  · simp only [IndexTs.calculateImpermanentLoss, h1, h2]
    norm_num
  · rw [closedFormIL, h4]
    norm_num
  · rw [abs_of_nonneg (by norm_num : (0 : ℝ) ≤ 100 / 3 - (-20 : ℝ))]
    norm_num

/-- Counterexample to claim C6 as stated: at the input `priceRatio = 1`,
`p0 = p1 = 1`, `amount0 = amount1 = 1`, `fees = 0.1`, `daysHeld = 365`
the internal values are `ilPercentage = 0`, `feeApr = 5`, `netApr = 5`;
the five-rule table selects rule 3's label, but the `src/index.ts`
variant (which omits rules 3 and 4) returns the default label. -/
theorem c6_counterexample :
    (IndexTs.calculateImpermanentLoss 1 1 1 1 1 (1 / 10) 365).recommendation =
      "Monitor position" ∧
    (IndexTs.calculateImpermanentLoss 1 1 1 1 1 (1 / 10) 365).il_percentage = 0 ∧
    (IndexTs.calculateImpermanentLoss 1 1 1 1 1 (1 / 10) 365).fee_apr = 5 ∧
    (IndexTs.calculateImpermanentLoss 1 1 1 1 1 (1 / 10) 365).net_apr = 5 ∧
    specRecommendation 0 5 5 = "Profitable position - fees covering IL" := by
  have h1 : Real.sqrt ((1 : ℝ) * 1 / 1) = 1 := sqrt_eval _ _ (by norm_num) (by norm_num)
  have h2 : Real.sqrt ((1 : ℝ) * 1 * 1) = 1 := sqrt_eval _ _ (by norm_num) (by norm_num)
  refine ⟨?_, ?_, ?_, ?_, ?_⟩ <;>
    · simp only [IndexTs.calculateImpermanentLoss, specRecommendation, h1, h2]
      norm_num

/-- Counterexample to claim C7 as stated: at the input `priceRatio = 1`,
`p0 = p1 = 1`, `amount0 = amount1 = 1`, `fees = 0.1`, `daysHeld = 365`
the two variants return different recommendation strings, so their
results are not equal. -/
theorem c7_counterexample :
    (IndexTs.calculateImpermanentLoss 1 1 1 1 1 (1 / 10) 365).recommendation =
      "Monitor position" ∧
    (SrcIndexTs.calculateImpermanentLoss 1 1 1 1 1 (1 / 10) 365).recommendation =
      "Profitable position - fees covering IL" ∧
    (IndexTs.calculateImpermanentLoss 1 1 1 1 1 (1 / 10) 365).recommendation ≠
      (SrcIndexTs.calculateImpermanentLoss 1 1 1 1 1 (1 / 10) 365).recommendation := by
  have h1 : Real.sqrt ((1 : ℝ) * 1 / 1) = 1 := sqrt_eval _ _ (by norm_num) (by norm_num)
  have h2 : Real.sqrt ((1 : ℝ) * 1 * 1) = 1 := sqrt_eval _ _ (by norm_num) (by norm_num)
  have e1 : (IndexTs.calculateImpermanentLoss 1 1 1 1 1 (1 / 10) 365).recommendation =
      "Monitor position" := by
    simp only [IndexTs.calculateImpermanentLoss, h1, h2]
    norm_num
  have e2 : (SrcIndexTs.calculateImpermanentLoss 1 1 1 1 1 (1 / 10) 365).recommendation =
      "Profitable position - fees covering IL" := by
    simp only [SrcIndexTs.calculateImpermanentLoss, h1, h2]
    norm_num
  refine ⟨e1, e2, ?_⟩
  rw [e1, e2]
  decide

/-- Counterexample to claim C8 as stated: in the `src/src/index.ts`
variant with `daysHeld = 365` and `initialValueUsd = 100`, doubling
`feesEarned` from `0.004` to `0.008` moves the returned (rounded)
`fee_apr` from `0` to `0.01`, which is not twice `0`. -/
theorem c8_counterexample :
    (SrcIndexTs.calculateImpermanentLoss 1 99 1 1 1 (1 / 250) 365).fee_apr = 0 ∧
    (SrcIndexTs.calculateImpermanentLoss 1 99 1 1 1 (1 / 125) 365).fee_apr = 1 / 100 ∧
    (1 / 100 : ℝ) ≠ 2 * 0 := by
  have e1 : (SrcIndexTs.calculateImpermanentLoss 1 99 1 1 1 (1 / 250) 365).fee_apr =
      round2 (1 / 250) := by
    simp only [SrcIndexTs.calculateImpermanentLoss]
    congr 1
    norm_num
  have e2 : (SrcIndexTs.calculateImpermanentLoss 1 99 1 1 1 (1 / 125) 365).fee_apr =
      round2 (1 / 125) := by
    simp only [SrcIndexTs.calculateImpermanentLoss]
    congr 1
    norm_num
  refine ⟨?_, ?_, by norm_num⟩
  · rw [e1, round2_eval (1 / 250) 0 (by rw [round_eq]; norm_num)]
    norm_num
  · rw [e2, round2_eval (1 / 125) 1 (by rw [round_eq]; norm_num)]
    norm_num

/-- Counterexample to claim C9 as stated: the `src/index.ts` variant
applies no rounding — at `priceRatio = 4`, `p0 = 1`, `p1 = 5`,
`amount0 = amount1 = 1`, `fees = 0`, `daysHeld = 1` it returns
`il_percentage = 100/3`, which differs from the 2-decimal rounding
`33.33` of the internally computed value. -/
theorem c9_counterexample :
    (IndexTs.calculateImpermanentLoss 4 1 5 1 1 0 1).il_percentage = 100 / 3 ∧
    round2 (100 / 3) = 3333 / 100 ∧
    ((100 : ℝ) / 3 ≠ 3333 / 100) := by
  have h1 : Real.sqrt ((1 : ℝ) * 1 / 4) = 1 / 2 := sqrt_eval _ _ (by norm_num) (by norm_num)
  have h2 : Real.sqrt ((1 : ℝ) * 1 * 4) = 2 := sqrt_eval _ _ (by norm_num) (by norm_num)
  refine ⟨?_, ?_, by norm_num⟩
  · simp only [IndexTs.calculateImpermanentLoss, h1, h2]
    norm_num
  · rw [round2_eval (100 / 3) 3333 (by rw [round_eq]; norm_num)]
    norm_num

/-- Counterexample to claim C1 as stated: the `src/src/index.ts` variant
rounds its fields, so at `priceRatio = 4`, `p0 = 1`, `p1 = 5`,
`amount0 = amount1 = 1`, `fees = 0`, `daysHeld = 1` (which satisfies all
preconditions) the returned record violates the spec's step equation
`il_percentage = 100 * il_usd / hodl_value_usd`
(`33.33 ≠ 100 * 3 / 9`). -/
theorem c1_counterexample :
    ¬ SpecSteps 4 1 5 1 1 0 (SrcIndexTs.calculateImpermanentLoss 4 1 5 1 1 0 1) := by
  have h1 : Real.sqrt ((1 : ℝ) * 1 / 4) = 1 / 2 := sqrt_eval _ _ (by norm_num) (by norm_num)
  have h2 : Real.sqrt ((1 : ℝ) * 1 * 4) = 2 := sqrt_eval _ _ (by norm_num) (by norm_num)
  have e_p : (SrcIndexTs.calculateImpermanentLoss 4 1 5 1 1 0 1).il_percentage =
      3333 / 100 := by
    have e : (SrcIndexTs.calculateImpermanentLoss 4 1 5 1 1 0 1).il_percentage =
        round2 (100 / 3) := by
      simp only [SrcIndexTs.calculateImpermanentLoss, h1, h2]
      congr 1
      norm_num
    rw [e, round2_eval (100 / 3) 3333 (by rw [round_eq]; norm_num)]
    norm_num
  have e_u : (SrcIndexTs.calculateImpermanentLoss 4 1 5 1 1 0 1).il_usd = 3 := by
    have e : (SrcIndexTs.calculateImpermanentLoss 4 1 5 1 1 0 1).il_usd =
        round2 3 := by
      simp only [SrcIndexTs.calculateImpermanentLoss, h1, h2]
      congr 1
      norm_num
    rw [e, round2_eval 3 300 (by rw [round_eq]; norm_num)]
    norm_num
  have e_h : (SrcIndexTs.calculateImpermanentLoss 4 1 5 1 1 0 1).hodl_value_usd = 9 := by
    have e : (SrcIndexTs.calculateImpermanentLoss 4 1 5 1 1 0 1).hodl_value_usd =
        round2 9 := by
      simp only [SrcIndexTs.calculateImpermanentLoss]
      congr 1
      norm_num
    rw [e, round2_eval 9 900 (by rw [round_eq]; norm_num)]
    norm_num
  intro hsteps
  have h5 := hsteps.2.2.2.2
  rw [e_p, e_u, e_h] at h5
  norm_num at h5
